import Mathlib

/-!
Shallow embedding of the monitoring dashboard client engine
(src/web/static/js/monitoring.js) together with proofs settling the
frozen claims about it.  Numbers are modelled exactly: JS numbers become
rationals, timestamps become integers, and machine strings become Lean
strings.  Stateful dashboard code becomes explicit state passing on a
dashboard state structure; server responses are passed in as explicit
parameters.
-/

namespace MonitoringDashboard

/-- Test that the second list starts with the first list
(character-wise equality), used to embed the JS substring test. -/
def startsWithL : List Char → List Char → Bool
  | [], _ => true
  | _ :: _, [] => false
  | c :: cs, d :: ds => c = d && startsWithL cs ds

/-- Test that `needle` occurs contiguously inside `hay`,
embedding the JS `String.prototype.includes` test. -/
def containsL (needle : List Char) : List Char → Bool
  | [] => startsWithL needle []
  | c :: rest => startsWithL needle (c :: rest) || containsL needle rest

/-- Embedding of `hay.includes(needle)` on JS strings. -/
def strIncludes (hay needle : String) : Bool :=
  containsL needle.data hay.data

/-- Embedding of `s.toLowerCase()` restricted to the character-wise
lowercase map used on the log text. -/
def lowerStr (s : String) : String :=
  String.mk (s.data.map Char.toLower)

/-- The unit-name array of `formatBytes`. -/
def sizes : List String := ["Bytes", "KB", "MB", "GB", "TB", "PB", "EB", "ZB", "YB"]

/-- The unit index computed by `formatBytes`:
`Math.floor(Math.log(bytes) / Math.log(1024))` on a positive input. -/
def unitIndex (q : ℚ) : ℤ := Int.log 1024 q

/-- The value scaled into the selected unit: `bytes / Math.pow(k, i)`. -/
def scaledValue (q : ℚ) : ℚ := q / 1024 ^ unitIndex q

/-- Rounding to two decimal places, embedding `toFixed(2)` (round half
away from zero agrees with round half up on the nonnegative inputs the
dashboard produces). -/
def round2 (q : ℚ) : ℚ := (round (q * 100) : ℚ) / 100

/-- Renders a rational with denominator dividing 100 the way
`parseFloat(x.toFixed(2)).toString()` renders it: up to two decimal
digits with trailing zeros removed. -/
def fixed2String (q : ℚ) : String :=
  let n : ℤ := round (q * 100)
  let sign : String := if n < 0 then "-" else ""
  let m : ℕ := n.natAbs
  let ip : ℕ := m / 100
  let fp : ℕ := m % 100
  if fp = 0 then sign ++ toString ip
  else if fp % 10 = 0 then sign ++ toString ip ++ "." ++ toString (fp / 10)
  else sign ++ toString ip ++ "." ++ (if fp < 10 then "0" else "") ++ toString fp

/-- Embedding of `formatBytes(bytes)`.  A zero input short-circuits to
`"0 Bytes"`; a negative input makes every JS arithmetic step produce
`NaN` and the unit lookup produce `undefined`; otherwise the unit index
is the floor base-1024 logarithm, the value is scaled, rounded to two
decimals, and suffixed with the selected unit name (out-of-range indices
read `undefined` from the array, as in JS). -/
def formatBytes (q : ℚ) : String :=
  if q = 0 then "0 Bytes"
  else if q < 0 then "NaN undefined"
  else
    fixed2String (round2 (scaledValue q)) ++ " " ++
      (if unitIndex q < 0 then "undefined" else sizes.getD (unitIndex q).toNat "undefined")

/-- A metric series: ordered `(timestamp, value)` samples. -/
abbrev Series := List (ℤ × ℚ)

/-- The four bucket maps built by `updateSystemCharts`. -/
structure SystemBuckets where
  cpu : List (String × Series)
  memory : List (String × Series)
  disk : List (String × Series)
  network : List (String × Series)
deriving DecidableEq

/-- Embedding of the grouping loop of `updateSystemCharts`: each metric
is routed by the first matching substring among `cpu`, `memory`, `disk`,
`network`; a metric matching none of them is placed nowhere. -/
def groupSystemMetrics : List (String × Series) → SystemBuckets
  | [] => ⟨[], [], [], []⟩
  | (name, values) :: rest =>
    let b := groupSystemMetrics rest
    if strIncludes name "cpu" then ⟨(name, values) :: b.cpu, b.memory, b.disk, b.network⟩
    else if strIncludes name "memory" then ⟨b.cpu, (name, values) :: b.memory, b.disk, b.network⟩
    else if strIncludes name "disk" then ⟨b.cpu, b.memory, (name, values) :: b.disk, b.network⟩
    else if strIncludes name "network" then ⟨b.cpu, b.memory, b.disk, (name, values) :: b.network⟩
    else b

/-- Removes the first occurrence of `pat` from a character list,
embedding the single-replacement `String.prototype.replace` with an
empty replacement string. -/
def removeFirstL (pat : List Char) : List Char → List Char
  | [] => []
  | c :: rest =>
    if startsWithL pat (c :: rest) then List.drop pat.length (c :: rest)
    else c :: removeFirstL pat rest

/-- Display name used by `updateMetricTable`:
`name.replace('system.', '').replace(/_/g, ' ')`. -/
def displayName (name : String) : String :=
  String.mk ((removeFirstL "system.".data name.data).map
    (fun c => if c = '_' then ' ' else c))

/-- Two-decimal rendering with trailing zeros kept, embedding
`x.toFixed(2)` for the table values. -/
def toFixed2 (q : ℚ) : String :=
  let n : ℤ := round (q * 100)
  let sign : String := if n < 0 then "-" else ""
  let m : ℕ := n.natAbs
  sign ++ toString (m / 100) ++ "." ++
    (if m % 100 < 10 then "0" else "") ++ toString (m % 100)

/-- Value formatting branch of `updateMetricTable`. -/
def formatMetricValue (name : String) (v : ℚ) : String :=
  if strIncludes name "percent" then toFixed2 v ++ "%"
  else if strIncludes name "bytes" then formatBytes v
  else if strIncludes name "per_sec" then
    if strIncludes name "bytes" then formatBytes v ++ "/s" else toFixed2 v ++ "/s"
  else toFixed2 v

/-- Rows produced by `updateMetricTable` for one bucket: metrics with an
empty series are skipped, the rest show their display name and the
formatted latest value. -/
def tableRows : List (String × Series) → List (String × String)
  | [] => []
  | (name, values) :: rest =>
    match values.getLast? with
    | none => tableRows rest
    | some last => (displayName name, formatMetricValue name last.2) :: tableRows rest

/-- The four metric tables rendered on the system tab, keyed by element
id, as filled by `updateSystemCharts`. -/
def systemTables (metricsData : List (String × Series)) :
    List (String × List (String × String)) :=
  let b := groupSystemMetrics metricsData
  [("cpu-metrics", tableRows b.cpu), ("memory-metrics", tableRows b.memory),
   ("disk-metrics", tableRows b.disk), ("network-metrics", tableRows b.network)]

/-- The four dashboard tab names (the `data-tab` values of the tab
buttons and the `tab-` pane ids). -/
def tabNames : List String := ["system", "performance", "alerts", "logs"]

/-- The tab-scoped load routines dispatched by `loadTabData`. -/
inductive TabLoad where
  | system
  | performance
  | alerts
  | logs
deriving DecidableEq

/-- Embedding of `loadTabData`: the switch statement maps each of the
four known tab names to its load routine and does nothing on any other
value. -/
def loadTabData (tabName : String) : Option TabLoad :=
  if tabName = "system" then some TabLoad.system
  else if tabName = "performance" then some TabLoad.performance
  else if tabName = "alerts" then some TabLoad.alerts
  else if tabName = "logs" then some TabLoad.logs
  else none

/-- Dashboard state owned by the `MonitoringDashboard` object, with the
timer handle made explicit: `liveTimers` tracks the interval timers
currently armed in the browser and `nextTimerId` generates fresh
handles. -/
structure DashState where
  currentTab : String
  activeButtons : List String
  activePanes : List String
  monitoringActive : Bool
  refreshTimer : Option ℕ
  liveTimers : List ℕ
  nextTimerId : ℕ
  lastRefresh : Option ℤ
deriving DecidableEq

/-- The dashboard state right after object construction. -/
def initialDashState : DashState :=
  ⟨"system", ["system"], ["system"], false, none, [], 0, none⟩

/-- Embedding of `switchTab(tabName)`: `currentTab` is assigned
unconditionally, each tab button is active exactly when its `data-tab`
equals `tabName`, each pane is active exactly when its id equals
`tab-` + `tabName`, and `loadTabData(tabName)` is invoked. -/
def switchTab (tabName : String) (st : DashState) : DashState × Option TabLoad :=
  ({ st with
      currentTab := tabName,
      activeButtons := tabNames.filter (fun b => b = tabName),
      activePanes := tabNames.filter (fun p => "tab-" ++ p = "tab-" ++ tabName) },
   loadTabData tabName)

/-- Embedding of `setAutoRefresh(seconds)`: any existing interval timer
is cleared first, then a new one is armed only when `seconds > 0`. -/
def setAutoRefresh (seconds : ℤ) (st : DashState) : DashState :=
  let st1 :=
    match st.refreshTimer with
    | some t => { st with refreshTimer := none, liveTimers := st.liveTimers.erase t }
    | none => st
  if 0 < seconds then
    { st1 with
        refreshTimer := some st1.nextTimerId,
        liveTimers := st1.liveTimers ++ [st1.nextTimerId],
        nextTimerId := st1.nextTimerId + 1 }
  else st1

/-- Embedding of `refreshDashboard()`: stamps `lastRefresh` with the
current instant and reloads the data of the current tab (the companion
monitoring status recheck is a read-only fetch). -/
def refreshDashboard (now : ℤ) (st : DashState) : DashState × Option TabLoad :=
  ({ st with lastRefresh := some now }, loadTabData st.currentTab)

/-- Well-formedness of the timer bookkeeping: the armed browser timers
are exactly the stored handle, and every live handle is older than the
fresh-handle counter. -/
def timerWellFormed (st : DashState) : Prop :=
  st.liveTimers = st.refreshTimer.toList ∧ ∀ t ∈ st.liveTimers, t < st.nextTimerId

/-- Abstract model of the Time Formatter clock-time rendering
(`date.toLocaleTimeString(...)`): the claims depend only on which
timestamps are turned into labels, not on the locale text, so the
rendering is modelled as the decimal form of the instant. -/
def formatTime (t : ℤ) : String := toString t

/-- One dataset of a chart handle: legend label and value sequence. -/
structure Dataset where
  label : String
  data : List ℚ
deriving DecidableEq

/-- One chart-library handle, with an identity so that replacement
versus in-place mutation is observable. -/
structure ChartHandle where
  id : ℕ
  labels : List String
  datasets : List Dataset
  titleText : String
deriving DecidableEq

/-- The chart slots of the dashboard (`this.charts`), plus a fresh-id
counter standing for allocation of new chart-library objects. -/
structure ChartsState where
  cpu : Option ChartHandle
  disk : Option ChartHandle
  performance : Option ChartHandle
  nextChartId : ℕ
deriving DecidableEq

/-- Writes a new value sequence into the first dataset of a handle,
embedding `chart.data.datasets[0].data = data`. -/
def setFirstData (ds : List Dataset) (d : List ℚ) : List Dataset :=
  match ds with
  | [] => []
  | x :: rest => { x with data := d } :: rest

/-- Writes label and value sequence into the first dataset, embedding
the dataset update of `renderPerformanceChart`. -/
def setFirstLabelData (ds : List Dataset) (lbl : String) (d : List ℚ) : List Dataset :=
  match ds with
  | [] => []
  | x :: rest => { x with label := lbl, data := d } :: rest

/-- Embedding of `updateCpuChart(cpuMetrics)`: reads the
`system.cpu_percent` series (empty when absent), builds labels and
values, then either constructs the chart on first data or mutates the
existing handle in place. -/
def updateCpuChart (cpuMetrics : List (String × Series)) (st : ChartsState) : ChartsState :=
  let cpuPercentData := (cpuMetrics.lookup "system.cpu_percent").getD []
  let labels := cpuPercentData.map (fun item => formatTime item.1)
  let data := cpuPercentData.map (fun item => item.2)
  match st.cpu with
  | none =>
    { st with
        cpu := some ⟨st.nextChartId, labels, [⟨"CPU Usage", data⟩], ""⟩,
        nextChartId := st.nextChartId + 1 }
  | some c =>
    { st with cpu := some { c with labels := labels, datasets := setFirstData c.datasets data } }

/-- Embedding of the series-selection loop of `updateDiskChart`: the
accumulator starts empty and is overwritten by the values of a metric
whose name contains `percent` only while the accumulator is still
empty. -/
def updateDiskChartData (diskMetrics : List (String × Series)) : Series :=
  diskMetrics.foldl
    (fun acc p => if strIncludes p.1 "percent" && acc.length == 0 then p.2 else acc) []

/-- Embedding of `updateDiskChart(diskMetrics)`: selects the plotted
series with `updateDiskChartData`, then creates or mutates the single
`Disk Usage` dataset of the disk chart slot. -/
def updateDiskChart (diskMetrics : List (String × Series)) (st : ChartsState) : ChartsState :=
  let diskPercentData := updateDiskChartData diskMetrics
  let labels := diskPercentData.map (fun item => formatTime item.1)
  let data := diskPercentData.map (fun item => item.2)
  match st.disk with
  | none =>
    { st with
        disk := some ⟨st.nextChartId, labels, [⟨"Disk Usage", data⟩], ""⟩,
        nextChartId := st.nextChartId + 1 }
  | some c =>
    { st with disk := some { c with labels := labels, datasets := setFirstData c.datasets data } }

/-- Removes a trailing `_duration` from a metric name, embedding
`name.replace(/_duration$/, '')`. -/
def stripDurationSuffix (name : String) : String :=
  if name.endsWith "_duration" then name.dropRight 9 else name

/-- Last dot-separated component of a name, embedding
`name.split('.').pop()`. -/
def lastComponent (s : String) : String :=
  (s.splitOn ".").getLastD ""

/-- Embedding of `renderPerformanceChart(metricName, metricValues)`:
builds labels and values, derives the display name, then creates the
chart on first data or mutates title, label and values of the existing
handle in place. -/
def renderPerformanceChart (metricName : String) (metricValues : Series)
    (st : ChartsState) : ChartsState :=
  let labels := metricValues.map (fun item => formatTime item.1)
  let data := metricValues.map (fun item => item.2)
  let dn := lastComponent (stripDurationSuffix metricName)
  match st.performance with
  | none =>
    { st with
        performance := some ⟨st.nextChartId, labels, [⟨dn, data⟩], "Performance Metric: " ++ dn⟩,
        nextChartId := st.nextChartId + 1 }
  | some c =>
    { st with
        performance := some
          { c with
              titleText := "Performance Metric: " ++ dn,
              labels := labels,
              datasets := setFirstLabelData c.datasets dn data } }

/-- An alert as delivered by the server. -/
structure AlertItem where
  name : String
  description : String
  severity : String
  category : String
  status : String
  triggeredAt : Option ℤ
  acknowledgedAt : Option ℤ
  acknowledgedBy : Option String
  silenced : Bool
deriving DecidableEq

/-- The severity rank table of `renderActiveAlerts`. -/
def severityOrder : List (String × ℕ) :=
  [("critical", 0), ("error", 1), ("warning", 2), ("info", 3)]

/-- Rank lookup; the default is irrelevant for the four documented
severities (in JS an unknown severity yields `undefined` and a `NaN`
comparator, so the claims restrict attention to the enum). -/
def severityRank (s : String) : ℕ := (severityOrder.lookup s).getD 4

/-- Stable insertion into a sorted list: `x` is placed before the first
element `y` with `le x y`, so elements comparing equal keep their
original relative order. -/
def insertLe (le : α → α → Bool) (x : α) : List α → List α
  | [] => [x]
  | y :: ys => if le x y then x :: y :: ys else y :: insertLe le x ys

/-- Stable insertion sort, the embedding of the (stable) JS
`Array.prototype.sort` with a comparator: `le a b` holds exactly when
the comparator returns a nonpositive number on `(a, b)`. -/
def sortLe (le : α → α → Bool) : List α → List α
  | [] => []
  | x :: xs => insertLe le x (sortLe le xs)

/-- Comparator-induced order of `renderActiveAlerts`:
`severityOrder[a.severity] - severityOrder[b.severity] <= 0`. -/
def alertLe (a b : AlertItem) : Bool :=
  severityRank a.severity ≤ severityRank b.severity

/-- Order in which `renderActiveAlerts` renders the active alerts. -/
def sortActiveAlerts (alerts : List AlertItem) : List AlertItem :=
  sortLe alertLe alerts

/-- A server response to a mutating request: decoded JSON with its
`status` field and optional `message`, or a transport failure. -/
inductive ServerResp where
  | json (status : String) (message : Option String)
  | transportError
deriving DecidableEq

/-- True when a response is treated as a failure: any decoded `status`
other than the literal `success`, or a transport error. -/
def respFailed : ServerResp → Bool
  | ServerResp.json s _ => s ≠ "success"
  | ServerResp.transportError => true

/-- A toast notification with its message and kind. -/
structure Toast where
  message : String
  kind : String
deriving DecidableEq

/-- Result of `toggleMonitoring`: the flag after the handler ran, the
new toggle-button label when it was rewritten, and the toast shown. -/
structure ToggleOutcome where
  monitoringActive : Bool
  buttonLabel : Option String
  toast : Toast
deriving DecidableEq

/-- Embedding of `toggleMonitoring()` with the server response made
explicit: the flag flips and the button is rewritten only on a
`success` status; every failure keeps the flag and shows an error
toast. -/
def toggleMonitoring (active : Bool) (resp : ServerResp) : ToggleOutcome :=
  if active then
    match resp with
    | ServerResp.json status _ =>
      if status = "success" then ⟨false, some "Start Monitoring", ⟨"Monitoring stopped", "success"⟩⟩
      else ⟨active, none, ⟨"Failed to stop monitoring", "error"⟩⟩
    | ServerResp.transportError => ⟨active, none, ⟨"Error stopping monitoring", "error"⟩⟩
  else
    match resp with
    | ServerResp.json status _ =>
      if status = "success" then ⟨true, some "Stop Monitoring", ⟨"Monitoring started", "success"⟩⟩
      else ⟨active, none, ⟨"Failed to start monitoring", "error"⟩⟩
    | ServerResp.transportError => ⟨active, none, ⟨"Error starting monitoring", "error"⟩⟩

/-- Result of `createAlert`: whether the HTTP request was issued at
all, whether the alert view was reloaded (`loadAlerts`), whether the
form fields were reset, and the toast shown. -/
structure CreateAlertOutcome where
  requestIssued : Bool
  alertsReloaded : Bool
  formReset : Bool
  toast : Toast
deriving DecidableEq

/-- Embedding of `createAlert()` with the form fields and the server
response made explicit: an empty name or description short-circuits
with an error toast before any request; a non-success response shows
the server message and leaves the alert view alone; only a `success`
status resets the form and reloads the alerts. -/
def createAlert (name description : String) (resp : ServerResp) : CreateAlertOutcome :=
  if name = "" ∨ description = "" then
    ⟨false, false, false, ⟨"Alert name and description are required", "error"⟩⟩
  else
    match resp with
    | ServerResp.json status msg =>
      if status = "success" then
        ⟨true, true, true, ⟨"Alert \"" ++ name ++ "\" created", "success"⟩⟩
      else
        ⟨true, false, false, ⟨"Failed to create alert: " ++ msg.getD "undefined", "error"⟩⟩
    | ServerResp.transportError => ⟨true, false, false, ⟨"Error creating alert", "error"⟩⟩

/-- One entry of the in-memory log buffer. -/
structure LogEntry where
  timestamp : String
  level : String
  component : String
  message : String
deriving DecidableEq

/-- The class list given to a rendered log entry:
`log-entry log-${log.level}`. -/
def logEntryClasses (e : LogEntry) : List String :=
  ["log-entry", "log-" ++ e.level]

/-- Embedding of `entry.classList.contains(cls)`. -/
def classListContains (e : LogEntry) (cls : String) : Bool :=
  (logEntryClasses e).contains cls

/-- Text content of the component span, which carries a trailing colon
in the markup: `${log.component}:`. -/
def logComponentText (e : LogEntry) : String :=
  e.component ++ ":"

/-- Whitespace between the spans of a rendered log entry (newline plus
the indentation of the markup template literal). -/
def logSep : String := "\n                    "

/-- Trailing whitespace of a rendered log entry. -/
def logEnd : String := "\n                "

/-- Full text content of a rendered log entry, the concatenation of the
four span texts and the template whitespace around them. -/
def logEntryText (e : LogEntry) : String :=
  logSep ++ e.timestamp ++ logSep ++ "[" ++ e.level ++ "]" ++ logSep ++
    e.component ++ ":" ++ logSep ++ e.message ++ logEnd

/-- Embedding of the per-entry body of `filterLogs()`: `visible` starts
true and is cleared by a failing level test (class list), a failing
component test (span text), or a failing case-insensitive search over
the full entry text. -/
def entryVisible (level component searchRaw : String) (e : LogEntry) : Bool :=
  let search := lowerStr searchRaw
  !(level ≠ "" && !classListContains e ("log-" ++ level)) &&
  !(component ≠ "" && !strIncludes (logComponentText e) component) &&
  !(search ≠ "" && !strIncludes (lowerStr (logEntryText e)) search)

/-- Embedding of `filterLogs()` over the loaded buffer: each entry is
paired with its visibility; the buffer itself is untouched. -/
def filterLogs (level component search : String) (entries : List LogEntry) :
    List (LogEntry × Bool) :=
  entries.map (fun e => (e, entryVisible level component search e))

/-- The values offered by the log level select: the empty all-levels
option and the five level names. -/
def validLevels : List String :=
  ["", "DEBUG", "INFO", "WARNING", "ERROR", "CRITICAL"]

/-- The simulated log buffer installed by `simulateLogs()`. -/
def simulatedLogs : List LogEntry :=
  [⟨"2025-05-14T12:00:00", "INFO", "system", "System started"⟩,
   ⟨"2025-05-14T12:00:01", "INFO", "agent", "Agent initialization complete"⟩,
   ⟨"2025-05-14T12:00:10", "INFO", "api", "API server listening on port 8001"⟩,
   ⟨"2025-05-14T12:01:05", "DEBUG", "agent", "Processing task #1234"⟩,
   ⟨"2025-05-14T12:01:23", "WARNING", "agent", "Task processing taking longer than expected"⟩,
   ⟨"2025-05-14T12:02:15", "ERROR", "api", "Failed to connect to external service: Connection timeout"⟩,
   ⟨"2025-05-14T12:03:42", "INFO", "scheduler", "Scheduled task executed successfully"⟩,
   ⟨"2025-05-14T12:04:30", "DEBUG", "memory", "Memory cache optimized"⟩,
   ⟨"2025-05-14T12:05:12", "INFO", "agent", "Task #1234 completed successfully"⟩,
   ⟨"2025-05-14T12:07:03", "CRITICAL", "system", "Out of disk space on /var/log"⟩,
   ⟨"2025-05-14T12:07:45", "WARNING", "scheduler", "Task #4567 delayed due to resource constraints"⟩,
   ⟨"2025-05-14T12:08:20", "INFO", "api", "Received request for /api/tasks"⟩,
   ⟨"2025-05-14T12:09:11", "DEBUG", "agent", "Loaded model from cache"⟩,
   ⟨"2025-05-14T12:10:30", "ERROR", "scheduler", "Failed to execute scheduled task: Task not found"⟩,
   ⟨"2025-05-14T12:11:55", "INFO", "system", "Disk space cleanup completed"⟩]

/-- Performance statistics of one metric. -/
structure PerfStat where
  latest : ℚ
  average : ℚ
  min : ℚ
  max : ℚ
  count : ℕ
deriving DecidableEq

/-- One row of the performance metrics table. -/
structure PerfRow where
  name : String
  category : String
  latest : ℚ
  average : ℚ
  min : ℚ
  max : ℚ
  count : ℕ
deriving DecidableEq

/-- The flattening loop of `updatePerformanceTable`: every
`(category, metric, stat)` triple becomes a row, with the `_duration`
suffix stripped from the displayed metric name. -/
def flattenPerf (data : List (String × List (String × PerfStat))) : List PerfRow :=
  data.flatMap (fun p =>
    p.2.map (fun q =>
      ⟨stripDurationSuffix q.1, p.1, q.2.latest, q.2.average, q.2.min, q.2.max, q.2.count⟩))

/-- Three-way string comparison; models `localeCompare` as code-point
lexicographic comparison (the metric and category names of this
dashboard are plain lowercase identifiers, on which the two orders
agree). -/
def strCmp (a b : String) : ℤ :=
  if a < b then -1 else if b < a then 1 else 0

/-- The comparator of `updatePerformanceTable`: categories first, then
names. -/
def perfCmp (a b : PerfRow) : ℤ :=
  if a.category = b.category then strCmp a.name b.name else strCmp a.category b.category

/-- Comparator-induced order for the stable sort of the rows. -/
def perfLe (a b : PerfRow) : Bool := perfCmp a b ≤ 0

/-- Embedding of `updatePerformanceTable`: flattens the two-level
statistics mapping into rows and sorts them stably by the comparator. -/
def updatePerformanceTable (data : List (String × List (String × PerfStat))) : List PerfRow :=
  sortLe perfLe (flattenPerf data)

/-- The disk-metrics input of the C10 counterexample: the first metric
whose name contains `percent` carries an empty series, the second a
nonempty one. -/
def diskEx : List (String × Series) :=
  [("system.disk_percent", []), ("system.disk_usage_percent", [((1000 : ℤ), (42 : ℚ))])]

/-- The series the C10 claim predicts for the disk chart: that of the
first metric, in enumeration order, whose name contains `percent`
(regardless of emptiness). -/
def firstPercentSeries : List (String × Series) → Series
  | [] => []
  | (name, values) :: rest =>
    if strIncludes name "percent" then values else firstPercentSeries rest

/-- The series the code actually plots: that of the first metric whose
name contains `percent` and whose series is nonempty. -/
def firstNonemptyPercentSeries : List (String × Series) → Series
  | [] => []
  | (name, values) :: rest =>
    if strIncludes name "percent" && !values.isEmpty then values
    else firstNonemptyPercentSeries rest

/-- A charts state holding a cpu handle with id 7 and no performance
handle, used to witness the chart-identity theorem. -/
def chartStExample : ChartsState :=
  ⟨some ⟨7, [], [⟨"CPU Usage", []⟩], ""⟩, none, none, 9⟩

/-- Concrete alerts used for the C5 severity-order scenario. -/
def alertOfSeverity (n sev : String) : AlertItem :=
  ⟨n, "d", sev, "system", "active", none, none, none, false⟩

/-- The C5 scenario input: severities warning, critical, info, error in
server order. -/
def alertsSample : List AlertItem :=
  [alertOfSeverity "a1" "warning", alertOfSeverity "a2" "critical",
   alertOfSeverity "a3" "info", alertOfSeverity "a4" "error"]

/-- A dashboard state with one armed timer, used to witness the
scheduler theorem. -/
def dashStWithTimer : DashState :=
  ⟨"system", ["system"], ["system"], true, some 3, [3], 4, some 100⟩

/-- C3 counterexample: at the byte count 1 the code selects unit index
0, yet index 1 also satisfies the predicate `b / 1024 ^ i < 1024`, so
the selected index is not the largest index satisfying it (that set is
upward closed, so no largest element exists). -/
theorem formatBytes_largest_index_cex :
    unitIndex 1 = 0 ∧ (1 : ℚ) / 1024 ^ (1 : ℤ) < 1024 ∧ ¬ ((1 : ℤ) ≤ unitIndex 1) := by
  have h : unitIndex 1 = 0 := Int.log_one_right 1024
  refine ⟨h, by norm_num, by rw [h]; norm_num⟩

/-- C3 (amended): for every byte count at least 1, `formatBytes`
selects the smallest unit index `i` with `b / 1024 ^ i < 1024`
(equivalently the largest `i` with `1024 ^ i ≤ b`), the displayed
scaled value times `1024 ^ i` equals `b` within the two-decimal
rounding tolerance, and `formatBytes 0` is the string `0 Bytes`. -/
theorem formatBytes_spec (q : ℚ) (j : ℤ) (hq : 1 ≤ q) :
    scaledValue q < 1024 ∧
    (q / 1024 ^ j < 1024 → unitIndex q ≤ j) ∧
    |round2 (scaledValue q) * 1024 ^ unitIndex q - q| ≤ 1024 ^ unitIndex q / 200 ∧
    formatBytes 0 = "0 Bytes" := by
  have hq0 : 0 < q := lt_of_lt_of_le one_pos hq
  have hpow : ∀ k : ℤ, (0 : ℚ) < 1024 ^ k := fun k => zpow_pos (by norm_num) k
  have hlow : (1024 : ℚ) ^ unitIndex q ≤ q := by
    have h := Int.zpow_log_le_self (b := 1024) (r := q) (by norm_num) hq0
    rw [unitIndex]
    exact_mod_cast h
  have hhigh : q < (1024 : ℚ) ^ (unitIndex q + 1) := by
    have h := Int.lt_zpow_succ_log_self (b := 1024) (R := ℚ) (by norm_num) q
    rw [unitIndex]
    exact_mod_cast h
  have hsucc : ∀ k : ℤ, (1024 : ℚ) ^ (k + 1) = 1024 ^ k * 1024 := fun k =>
    zpow_add_one₀ (by norm_num) k
  refine ⟨?_, ?_, ?_, rfl⟩
  · rw [scaledValue, div_lt_iff₀ (hpow _), mul_comm, ← hsucc]
    exact hhigh
  · intro hj
    rw [div_lt_iff₀ (hpow _), mul_comm, ← hsucc] at hj
    have hij : unitIndex q < j + 1 := by
      have := lt_of_le_of_lt hlow hj
      exact (zpow_lt_zpow_iff_right₀ (by norm_num : (1 : ℚ) < 1024)).mp this
    omega
  · have hx : scaledValue q * 1024 ^ unitIndex q = q :=
      div_mul_cancel₀ q (ne_of_gt (hpow _))
    have hr : |round2 (scaledValue q) - scaledValue q| ≤ 1 / 200 := by
      have h2 := abs_sub_round (scaledValue q * 100)
      rw [abs_sub_comm] at h2
      have heq : round2 (scaledValue q) - scaledValue q =
          ((round (scaledValue q * 100) : ℚ) - scaledValue q * 100) / 100 := by
        rw [round2]; ring
      rw [heq, abs_div, abs_of_pos (show (0 : ℚ) < 100 by norm_num)]
      linarith
    have hmul : round2 (scaledValue q) * 1024 ^ unitIndex q - q =
        (round2 (scaledValue q) - scaledValue q) * 1024 ^ unitIndex q := by
      rw [sub_mul, hx]
    rw [hmul, abs_mul, abs_of_pos (hpow _)]
    have := mul_le_mul_of_nonneg_right hr (le_of_lt (hpow (unitIndex q)))
    linarith

/-- Witness for the amended C3 theorem at the byte count 5 and
candidate index 0: the hypothesis is discharged concretely and the
smallest-index implication is exercised at index 0. -/
theorem formatBytes_spec_witness :
    (1 : ℚ) ≤ 5 ∧
    (scaledValue 5 < 1024 ∧
      ((5 : ℚ) / 1024 ^ (0 : ℤ) < 1024 → unitIndex 5 ≤ 0) ∧
      |round2 (scaledValue 5) * 1024 ^ unitIndex 5 - 5| ≤ 1024 ^ unitIndex 5 / 200 ∧
      formatBytes 0 = "0 Bytes") :=
  ⟨by decide, formatBytes_spec 5 0 (by decide)⟩

/-- Left cancellation for string concatenation. -/
theorem strAppend_right_inj {s t u : String} : s ++ t = s ++ u ↔ t = u := by
  constructor
  · intro h
    have hd : s.data ++ t.data = s.data ++ u.data := by
      have := congrArg String.data h
      simpa [String.data_append] using this
    exact congrArg String.mk (List.append_cancel_left hd)
  · intro h
    rw [h]

/-- C1 counterexample: the metric `system.uptime_seconds` matches none
of the four bucket substrings; it lands in no bucket and, contrary to
the claim, in none of the metric tables of the system tab either, even
though its series is nonempty. -/
theorem unmatched_metric_absent_from_tables_cex :
    groupSystemMetrics [("system.uptime_seconds", [((0 : ℤ), (5 : ℚ))])] =
      ⟨[], [], [], []⟩ ∧
    (systemTables [("system.uptime_seconds", [((0 : ℤ), (5 : ℚ))])]).map Prod.snd =
      [[], [], [], []] := by
  decide

/-- C1 (amended): the grouping of `updateSystemCharts` is first-match
per bucket — the cpu bucket holds exactly the metrics whose name
contains `cpu`, the memory bucket exactly those containing `memory` but
not `cpu`, and so on — and the four metric tables of the system tab are
filled from exactly these buckets, so a metric matching none of the
four substrings is dropped from both the system charts and the metric
tables. -/
theorem groupSystemMetrics_first_match_and_tables (m : List (String × Series)) :
    groupSystemMetrics m =
      ⟨m.filter (fun p => strIncludes p.1 "cpu"),
       m.filter (fun p => !strIncludes p.1 "cpu" && strIncludes p.1 "memory"),
       m.filter (fun p =>
         !strIncludes p.1 "cpu" && !strIncludes p.1 "memory" && strIncludes p.1 "disk"),
       m.filter (fun p =>
         !strIncludes p.1 "cpu" && !strIncludes p.1 "memory" && !strIncludes p.1 "disk" &&
           strIncludes p.1 "network")⟩ ∧
    (systemTables m).map Prod.snd =
      [tableRows (groupSystemMetrics m).cpu, tableRows (groupSystemMetrics m).memory,
       tableRows (groupSystemMetrics m).disk, tableRows (groupSystemMetrics m).network] := by
  refine ⟨?_, rfl⟩
  induction m with
  | nil => rfl
  | cons p rest ih =>
    obtain ⟨name, values⟩ := p
    by_cases h1 : strIncludes name "cpu" <;>
      by_cases h2 : strIncludes name "memory" <;>
      by_cases h3 : strIncludes name "disk" <;>
      by_cases h4 : strIncludes name "network" <;>
      simp [groupSystemMetrics, List.filter_cons, h1, h2, h3, h4, ih]

/-- C2 counterexample: the tab value `overview` is outside the fixed
enum, yet `switchTab` is not a no-op on it — `currentTab` becomes
`overview` (it was `system`), every button and pane loses its active
marking, and only the data load is skipped. -/
theorem switchTab_unknown_tab_cex :
    tabNames.contains "overview" = false ∧
    initialDashState.currentTab = "system" ∧
    (switchTab "overview" initialDashState).1.currentTab = "overview" ∧
    (switchTab "overview" initialDashState).1.activePanes = [] ∧
    (switchTab "overview" initialDashState).1.activeButtons = [] ∧
    (switchTab "overview" initialDashState).2 = none := by
  decide

/-- C2 (amended): `switchTab(tab)` always assigns `currentTab := tab`
and marks active exactly the buttons and panes matching `tab`; for a
tab inside the fixed enum this marks that view active and triggers its
data load, while for a tab outside the enum no view remains marked
active and no data load is triggered (but `currentTab` still changes,
so the operation is not a no-op). -/
theorem switchTab_spec (t : String) (st : DashState) :
    (switchTab t st).1.currentTab = t ∧
    (switchTab t st).1.activeButtons = tabNames.filter (fun b => b = t) ∧
    (switchTab t st).1.activePanes = tabNames.filter (fun b => b = t) ∧
    (switchTab t st).2 = loadTabData t ∧
    (t ∉ tabNames →
      (switchTab t st).1.activePanes = [] ∧ (switchTab t st).1.activeButtons = [] ∧
        (switchTab t st).2 = none) ∧
    (t ∈ tabNames → (switchTab t st).1.activePanes = [t] ∧ (switchTab t st).2 ≠ none) := by
  have hfilter : tabNames.filter (fun p => "tab-" ++ p = "tab-" ++ t) =
      tabNames.filter (fun b => b = t) := by
    apply List.filter_congr
    intro x _
    rw [decide_eq_decide]
    exact strAppend_right_inj
  have hempty : t ∉ tabNames → tabNames.filter (fun b => b = t) = [] := by
    intro h
    rw [List.filter_eq_nil_iff]
    intro b hb
    simp only [decide_eq_true_eq]
    rintro rfl
    exact h hb
  refine ⟨rfl, rfl, hfilter, rfl, ?_, ?_⟩
  · intro h
    have h' : t ≠ "system" ∧ t ≠ "performance" ∧ t ≠ "alerts" ∧ t ≠ "logs" := by
      simpa [tabNames] using h
    refine ⟨hfilter.trans (hempty h), hempty h, ?_⟩
    show loadTabData t = none
    simp [loadTabData, h'.1, h'.2.1, h'.2.2.1, h'.2.2.2]
  · intro h
    refine ⟨?_, ?_⟩
    · show tabNames.filter (fun p => "tab-" ++ p = "tab-" ++ t) = [t]
      rw [hfilter]
      fin_cases h <;> decide
    · show loadTabData t ≠ none
      fin_cases h <;> decide

/-- Witness for the amended C2 theorem at the unknown tab value
`bogus` and the initial dashboard state. -/
theorem switchTab_spec_witness :
    (switchTab "bogus" initialDashState).1.currentTab = "bogus" ∧
    (switchTab "bogus" initialDashState).1.activeButtons =
      tabNames.filter (fun b => b = "bogus") ∧
    (switchTab "bogus" initialDashState).1.activePanes =
      tabNames.filter (fun b => b = "bogus") ∧
    (switchTab "bogus" initialDashState).2 = loadTabData "bogus" ∧
    ("bogus" ∉ tabNames →
      (switchTab "bogus" initialDashState).1.activePanes = [] ∧
        (switchTab "bogus" initialDashState).1.activeButtons = [] ∧
        (switchTab "bogus" initialDashState).2 = none) ∧
    ("bogus" ∈ tabNames →
      (switchTab "bogus" initialDashState).1.activePanes = ["bogus"] ∧
        (switchTab "bogus" initialDashState).2 ≠ none) :=
  switchTab_spec "bogus" initialDashState

/-- C4: chart handles are created lazily and then only mutated.  For
the cpu slot of `updateCpuChart` and the performance slot of
`renderPerformanceChart`: a render on a slot that already holds a
handle keeps that handle and preserves its identity, and a render on an
empty slot installs a handle with the current fresh id — so each slot
allocates at most one handle per page session and later renders mutate
it in place. -/
theorem chart_handle_identity (st : ChartsState) (m : List (String × Series))
    (nm : String) (vs : Series) (c d : ChartHandle) :
    (st.cpu = some c → ((updateCpuChart m st).cpu).map ChartHandle.id = some c.id) ∧
    (st.cpu = none → ((updateCpuChart m st).cpu).map ChartHandle.id = some st.nextChartId) ∧
    (st.performance = some d →
      ((renderPerformanceChart nm vs st).performance).map ChartHandle.id = some d.id) ∧
    (st.performance = none →
      ((renderPerformanceChart nm vs st).performance).map ChartHandle.id = some st.nextChartId) := by
  refine ⟨?_, ?_, ?_, ?_⟩ <;> intro h <;>
    simp [updateCpuChart, renderPerformanceChart, h]

/-- Witness for the chart-identity theorem: on a state holding a cpu
handle with id 7 and an empty performance slot with fresh id 9, a
further cpu render keeps id 7 and a first performance render allocates
id 9. -/
theorem chart_handle_identity_witness :
    ((updateCpuChart [] chartStExample).cpu).map ChartHandle.id = some 7 ∧
    ((renderPerformanceChart "x" [] chartStExample).performance).map ChartHandle.id = some 9 :=
  ⟨(chart_handle_identity chartStExample [] "x" []
      ⟨7, [], [⟨"CPU Usage", []⟩], ""⟩ ⟨0, [], [], ""⟩).1 rfl,
   (chart_handle_identity chartStExample [] "x" []
      ⟨7, [], [⟨"CPU Usage", []⟩], ""⟩ ⟨0, [], [], ""⟩).2.2.2 rfl⟩

/-- C6: on every failed mutating action the local state is unchanged
and an error notification is shown.  A failed `toggleMonitoring`
response (non-success status or transport error) leaves the monitoring
flag and button untouched and shows an error toast; a failed
`createAlert` request leaves the alert view and form untouched and
shows an error toast; and an empty name or description makes
`createAlert` show an error toast without issuing any HTTP request. -/
theorem mutating_failure_preserves_state (active : Bool) (resp : ServerResp)
    (name description : String) (hfail : respFailed resp = true) :
    ((toggleMonitoring active resp).monitoringActive = active ∧
      (toggleMonitoring active resp).buttonLabel = none ∧
      (toggleMonitoring active resp).toast.kind = "error") ∧
    (name ≠ "" → description ≠ "" →
      ((createAlert name description resp).requestIssued = true ∧
        (createAlert name description resp).alertsReloaded = false ∧
        (createAlert name description resp).formReset = false ∧
        (createAlert name description resp).toast.kind = "error")) ∧
    ((name = "" ∨ description = "") →
      ((createAlert name description resp).requestIssued = false ∧
        (createAlert name description resp).alertsReloaded = false ∧
        (createAlert name description resp).toast =
          ⟨"Alert name and description are required", "error"⟩)) := by
  cases resp with
  | json s msg =>
    have hs : s ≠ "success" := by simpa [respFailed] using hfail
    refine ⟨?_, ?_, ?_⟩
    · cases active <;> simp [toggleMonitoring, hs]
    · intro hn hd
      simp [createAlert, hn, hd, hs]
    · intro h
      obtain h | h := h <;> simp [createAlert, h]
  | transportError =>
    refine ⟨?_, ?_, ?_⟩
    · cases active <;> simp [toggleMonitoring]
    · intro hn hd
      simp [createAlert, hn, hd]
    · intro h
      obtain h | h := h <;> simp [createAlert, h]

/-- Witness for the failure-path theorem: a decoded response with
status `error` while monitoring is active, and a create form with an
empty name. -/
theorem mutating_failure_preserves_state_witness :
    respFailed (ServerResp.json "error" (some "boom")) = true ∧
    (((toggleMonitoring true (ServerResp.json "error" (some "boom"))).monitoringActive = true ∧
       (toggleMonitoring true (ServerResp.json "error" (some "boom"))).buttonLabel = none ∧
       (toggleMonitoring true (ServerResp.json "error" (some "boom"))).toast.kind = "error") ∧
     ("" ≠ "" → "d" ≠ "" →
       ((createAlert "" "d" (ServerResp.json "error" (some "boom"))).requestIssued = true ∧
         (createAlert "" "d" (ServerResp.json "error" (some "boom"))).alertsReloaded = false ∧
         (createAlert "" "d" (ServerResp.json "error" (some "boom"))).formReset = false ∧
         (createAlert "" "d" (ServerResp.json "error" (some "boom"))).toast.kind = "error")) ∧
     (("" = "" ∨ "d" = "") →
       ((createAlert "" "d" (ServerResp.json "error" (some "boom"))).requestIssued = false ∧
         (createAlert "" "d" (ServerResp.json "error" (some "boom"))).alertsReloaded = false ∧
         (createAlert "" "d" (ServerResp.json "error" (some "boom"))).toast =
           ⟨"Alert name and description are required", "error"⟩))) :=
  ⟨by decide,
   mutating_failure_preserves_state true (ServerResp.json "error" (some "boom")) "" "d"
     (by decide)⟩

/-- C7: the scheduler keeps at most one live timer.  On a well-formed
state, `setAutoRefresh` yields a well-formed state with at most one
live timer; a nonpositive interval leaves no timer armed; a positive
interval arms exactly one fresh timer; and `refreshDashboard` stamps
the refresh instant and reloads the current tab independently of the
schedule — in particular it still does so after `setAutoRefresh 0`. -/
theorem setAutoRefresh_single_timer (seconds now : ℤ) (st : DashState)
    (h : timerWellFormed st) :
    timerWellFormed (setAutoRefresh seconds st) ∧
    (setAutoRefresh seconds st).liveTimers.length ≤ 1 ∧
    (seconds ≤ 0 →
      (setAutoRefresh seconds st).refreshTimer = none ∧
      (setAutoRefresh seconds st).liveTimers = []) ∧
    (0 < seconds →
      (setAutoRefresh seconds st).refreshTimer = some st.nextTimerId ∧
      (setAutoRefresh seconds st).liveTimers = [st.nextTimerId]) ∧
    (refreshDashboard now st).1.lastRefresh = some now ∧
    (refreshDashboard now st).2 = loadTabData st.currentTab ∧
    (refreshDashboard now (setAutoRefresh 0 st)).1.lastRefresh = some now ∧
    (refreshDashboard now (setAutoRefresh 0 st)).2 = loadTabData st.currentTab := by
  obtain ⟨hlive, hfresh⟩ := h
  have hchar : ∀ s : ℤ,
      (setAutoRefresh s st).liveTimers = (if 0 < s then [st.nextTimerId] else []) ∧
      (setAutoRefresh s st).refreshTimer = (if 0 < s then some st.nextTimerId else none) ∧
      (setAutoRefresh s st).nextTimerId =
        (if 0 < s then st.nextTimerId + 1 else st.nextTimerId) ∧
      (setAutoRefresh s st).currentTab = st.currentTab := by
    intro s
    rcases hrt : st.refreshTimer with _ | t
    · have hl : st.liveTimers = [] := by simpa [hrt, Option.toList] using hlive
      by_cases hp : 0 < s <;> simp [setAutoRefresh, hrt, hp, hl]
    · have hl : st.liveTimers = [t] := by simpa [hrt, Option.toList] using hlive
      by_cases hp : 0 < s <;> simp [setAutoRefresh, hrt, hp, hl]
  obtain ⟨hl1, hr1, hn1, _⟩ := hchar seconds
  obtain ⟨_, _, _, hc0⟩ := hchar 0
  refine ⟨⟨?_, ?_⟩, ?_, ?_, ?_, rfl, rfl, rfl, ?_⟩
  · rw [hl1, hr1]
    by_cases hp : 0 < seconds <;> simp [hp, Option.toList]
  · rw [hl1, hn1]
    by_cases hp : 0 < seconds <;> simp [hp]
  · rw [hl1]
    by_cases hp : 0 < seconds <;> simp [hp]
  · intro hle
    have hp : ¬ 0 < seconds := by omega
    rw [hr1, hl1]
    simp [hp]
  · intro hp
    rw [hr1, hl1]
    simp [hp]
  · show loadTabData (setAutoRefresh 0 st).currentTab = loadTabData st.currentTab
    rw [hc0]

/-- Witness for the scheduler theorem: disabling the schedule on a
state with one armed timer. -/
theorem setAutoRefresh_single_timer_witness :
    timerWellFormed dashStWithTimer ∧
    (timerWellFormed (setAutoRefresh 0 dashStWithTimer) ∧
      (setAutoRefresh 0 dashStWithTimer).liveTimers.length ≤ 1 ∧
      ((0 : ℤ) ≤ 0 →
        (setAutoRefresh 0 dashStWithTimer).refreshTimer = none ∧
        (setAutoRefresh 0 dashStWithTimer).liveTimers = []) ∧
      ((0 : ℤ) < 0 →
        (setAutoRefresh 0 dashStWithTimer).refreshTimer = some dashStWithTimer.nextTimerId ∧
        (setAutoRefresh 0 dashStWithTimer).liveTimers = [dashStWithTimer.nextTimerId]) ∧
      (refreshDashboard 99 dashStWithTimer).1.lastRefresh = some 99 ∧
      (refreshDashboard 99 dashStWithTimer).2 = loadTabData dashStWithTimer.currentTab ∧
      (refreshDashboard 99 (setAutoRefresh 0 dashStWithTimer)).1.lastRefresh = some 99 ∧
      (refreshDashboard 99 (setAutoRefresh 0 dashStWithTimer)).2 =
        loadTabData dashStWithTimer.currentTab) :=
  ⟨⟨by decide, by decide⟩, setAutoRefresh_single_timer 0 99 dashStWithTimer ⟨by decide, by decide⟩⟩

/-- Stable insertion preserves the multiset of elements. -/
theorem insertLe_perm (le : α → α → Bool) (x : α) (l : List α) :
    (insertLe le x l).Perm (x :: l) := by
  induction l with
  | nil => exact List.Perm.refl _
  | cons y ys ih =>
    by_cases h : le x y
    · rw [insertLe, if_pos h]
    · rw [insertLe, if_neg h]
      exact (ih.cons y).trans (List.Perm.swap x y ys)

/-- Membership in a stable insertion. -/
theorem mem_insertLe {le : α → α → Bool} {x a : α} {l : List α} :
    a ∈ insertLe le x l ↔ a = x ∨ a ∈ l := by
  have h := (insertLe_perm le x l).mem_iff (a := a)
  simpa using h

/-- The stable sort is a permutation of its input. -/
theorem sortLe_perm (le : α → α → Bool) (l : List α) : (sortLe le l).Perm l := by
  induction l with
  | nil => exact List.Perm.refl _
  | cons x xs ih => exact (insertLe_perm le x (sortLe le xs)).trans (ih.cons x)

/-- Stable insertion preserves sortedness with respect to a total
transitive relation decided by the comparator order. -/
theorem insertLe_pairwise {r : α → α → Prop} {le : α → α → Bool}
    (hiff : ∀ a b, le a b = true ↔ r a b) (htot : ∀ a b, r a b ∨ r b a)
    (htrans : ∀ a b c, r a b → r b c → r a c)
    (x : α) {l : List α} (h : l.Pairwise r) : (insertLe le x l).Pairwise r := by
  induction l with
  | nil => simp [insertLe]
  | cons y ys ih =>
    rcases List.pairwise_cons.mp h with ⟨hy, hys⟩
    by_cases hxy : le x y
    · rw [insertLe, if_pos hxy]
      have hrxy := (hiff x y).mp hxy
      refine List.pairwise_cons.mpr ⟨?_, h⟩
      intro z hz
      rcases List.mem_cons.mp hz with rfl | hz'
      · exact hrxy
      · exact htrans x y z hrxy (hy z hz')
    · rw [insertLe, if_neg hxy]
      have hryx : r y x := by
        rcases htot x y with hr | hr
        · exact absurd ((hiff x y).mpr hr) hxy
        · exact hr
      refine List.pairwise_cons.mpr ⟨?_, ih hys⟩
      intro z hz
      rcases mem_insertLe.mp hz with rfl | hz'
      · exact hryx
      · exact hy z hz'

/-- The stable sort is sorted with respect to a total transitive
relation decided by the comparator order. -/
theorem sortLe_pairwise {r : α → α → Prop} {le : α → α → Bool}
    (hiff : ∀ a b, le a b = true ↔ r a b) (htot : ∀ a b, r a b ∨ r b a)
    (htrans : ∀ a b c, r a b → r b c → r a c)
    (l : List α) : (sortLe le l).Pairwise r := by
  induction l with
  | nil => simp [sortLe]
  | cons x xs ih => exact insertLe_pairwise hiff htot htrans x ih

/-- Stable insertion skips over a block of elements that all compare
strictly before the inserted one. -/
theorem insertLe_append_skip {le : α → α → Bool} {x : α} {A : List α} (B : List α)
    (h : ∀ y ∈ A, le x y = false) : insertLe le x (A ++ B) = A ++ insertLe le x B := by
  induction A with
  | nil => rfl
  | cons a A ih =>
    have ha : le x a = false := h a (List.mem_cons_self a A)
    rw [List.cons_append, insertLe, if_neg (by simp [ha]), List.cons_append]
    rw [ih (fun y hy => h y (List.mem_cons_of_mem a hy))]

/-- Stable insertion lands at the front of a block of elements that all
compare at or after the inserted one. -/
theorem insertLe_front {le : α → α → Bool} {x : α} {B : List α}
    (h : ∀ y ∈ B, le x y = true) : insertLe le x B = x :: B := by
  cases B with
  | nil => rfl
  | cons b bs => rw [insertLe, if_pos (h b (List.mem_cons_self b bs))]

/-- Characterization of the stable sort under a four-valued rank: the
result is the rank-0 block, then the rank-1, rank-2 and rank-3 blocks,
each in original order — this expresses both sortedness and
stability. -/
theorem sortLe_rank_filters {α : Type} {k : α → ℕ} (l : List α)
    (hb : ∀ a ∈ l, k a < 4) :
    sortLe (fun a b => k a ≤ k b) l =
      l.filter (fun a => k a == 0) ++ l.filter (fun a => k a == 1) ++
        l.filter (fun a => k a == 2) ++ l.filter (fun a => k a == 3) := by
  induction l with
  | nil => rfl
  | cons x xs ih =>
    have hx : k x < 4 := hb x (List.mem_cons_self x xs)
    have ih' := ih (fun a ha => hb a (List.mem_cons_of_mem x ha))
    have hmem : ∀ (j : ℕ) (y : α), y ∈ xs.filter (fun a => k a == j) → k y = j := by
      intro j y hy
      have := List.of_mem_filter hy
      simpa using this
    rw [sortLe, ih']
    have h4 : k x = 0 ∨ k x = 1 ∨ k x = 2 ∨ k x = 3 := by omega
    rcases h4 with h0 | h1 | h2 | h3
    · rw [insertLe_front (fun y _ => by simp [h0])]
      simp [List.filter_cons, h0]
    · have e : xs.filter (fun a => k a == 0) ++ xs.filter (fun a => k a == 1) ++
          xs.filter (fun a => k a == 2) ++ xs.filter (fun a => k a == 3) =
          xs.filter (fun a => k a == 0) ++ (xs.filter (fun a => k a == 1) ++
            (xs.filter (fun a => k a == 2) ++ xs.filter (fun a => k a == 3))) := by
        simp [List.append_assoc]
      rw [e, insertLe_append_skip _ (fun y hy => by simp [h1, hmem 0 y hy]),
        insertLe_front (fun y hy => by
          rcases List.mem_append.mp hy with hy | hy
          · simp [h1, hmem 1 y hy]
          · rcases List.mem_append.mp hy with hy | hy
            · simp [h1, hmem 2 y hy]
            · simp [h1, hmem 3 y hy])]
      simp [List.filter_cons, h1, List.append_assoc]
    · have e : xs.filter (fun a => k a == 0) ++ xs.filter (fun a => k a == 1) ++
          xs.filter (fun a => k a == 2) ++ xs.filter (fun a => k a == 3) =
          (xs.filter (fun a => k a == 0) ++ xs.filter (fun a => k a == 1)) ++
            (xs.filter (fun a => k a == 2) ++ xs.filter (fun a => k a == 3)) := by
        simp [List.append_assoc]
      rw [e, insertLe_append_skip _ (fun y hy => by
          rcases List.mem_append.mp hy with hy | hy
          · simp [h2, hmem 0 y hy]
          · simp [h2, hmem 1 y hy]),
        insertLe_front (fun y hy => by
          rcases List.mem_append.mp hy with hy | hy
          · simp [h2, hmem 2 y hy]
          · simp [h2, hmem 3 y hy])]
      simp [List.filter_cons, h2, List.append_assoc]
    · rw [insertLe_append_skip _ (fun y hy => by
          rcases List.mem_append.mp hy with hy | hy
          · rcases List.mem_append.mp hy with hy | hy
            · simp [h3, hmem 0 y hy]
            · simp [h3, hmem 1 y hy]
          · simp [h3, hmem 2 y hy]),
        insertLe_front (fun y hy => by simp [h3, hmem 3 y hy])]
      simp [List.filter_cons, h3]

/-- C5: active alerts are rendered ascending by severity rank with the
server order kept among equal severities — the rendered list is exactly
the critical block, then the error, warning and info blocks, each in
server order; and on the scenario severities warning, critical, info,
error the rendered order is critical, error, warning, info. -/
theorem renderActiveAlerts_order (alerts : List AlertItem)
    (h : ∀ a ∈ alerts, severityRank a.severity < 4) :
    sortActiveAlerts alerts =
      alerts.filter (fun a => severityRank a.severity == 0) ++
        alerts.filter (fun a => severityRank a.severity == 1) ++
        alerts.filter (fun a => severityRank a.severity == 2) ++
        alerts.filter (fun a => severityRank a.severity == 3) ∧
    (sortActiveAlerts alertsSample).map AlertItem.severity =
      ["critical", "error", "warning", "info"] :=
  ⟨sortLe_rank_filters alerts h, by decide⟩

/-- Witness for the alert-order theorem at the four-alert scenario. -/
theorem renderActiveAlerts_order_witness :
    (∀ a ∈ alertsSample, severityRank a.severity < 4) ∧
    (sortActiveAlerts alertsSample =
      alertsSample.filter (fun a => severityRank a.severity == 0) ++
        alertsSample.filter (fun a => severityRank a.severity == 1) ++
        alertsSample.filter (fun a => severityRank a.severity == 2) ++
        alertsSample.filter (fun a => severityRank a.severity == 3) ∧
      (sortActiveAlerts alertsSample).map AlertItem.severity =
        ["critical", "error", "warning", "info"]) :=
  ⟨by decide, renderActiveAlerts_order alertsSample (by decide)⟩

/-- The lexicographic category-then-name order on performance rows. -/
def perfRowRel (a b : PerfRow) : Prop :=
  a.category < b.category ∨ (a.category = b.category ∧ a.name ≤ b.name)

/-- The comparator order of `updatePerformanceTable` decides the
lexicographic category-then-name order. -/
theorem perfLe_iff (a b : PerfRow) : perfLe a b = true ↔ perfRowRel a b := by
  rw [perfLe, perfCmp, strCmp, strCmp, perfRowRel]
  by_cases hc : a.category = b.category
  · by_cases h1 : a.name < b.name
    · simp [hc, h1, le_of_lt h1]
    · by_cases h2 : b.name < a.name
      · simp [hc, h1, h2, not_le.mpr h2]
      · have he : a.name = b.name := le_antisymm (not_lt.mp h2) (not_lt.mp h1)
        simp [hc, h1, h2, le_of_eq he]
  · by_cases h1 : a.category < b.category
    · simp [hc, h1]
    · have h2 : b.category < a.category :=
        lt_of_le_of_ne (not_lt.mp h1) (fun e => hc e.symm)
      simp [hc, h1, h2]

/-- Totality of the lexicographic row order. -/
theorem perfRowRel_total (a b : PerfRow) : perfRowRel a b ∨ perfRowRel b a := by
  rcases lt_trichotomy a.category b.category with h | h | h
  · exact Or.inl (Or.inl h)
  · rcases le_total a.name b.name with hn | hn
    · exact Or.inl (Or.inr ⟨h, hn⟩)
    · exact Or.inr (Or.inr ⟨h.symm, hn⟩)
  · exact Or.inr (Or.inl h)

/-- Transitivity of the lexicographic row order. -/
theorem perfRowRel_trans (a b c : PerfRow) :
    perfRowRel a b → perfRowRel b c → perfRowRel a c := by
  rintro (h1 | ⟨h1, h1n⟩) (h2 | ⟨h2, h2n⟩)
  · exact Or.inl (h1.trans h2)
  · exact Or.inl (h2 ▸ h1)
  · exact Or.inl (h1 ▸ h2)
  · exact Or.inr ⟨h1.trans h2, h1n.trans h2n⟩

/-- C9: the performance table shows exactly the flattening of the
two-level statistics mapping — one row per `(category, metric, stat)`
triple — arranged ascending first by category and then by metric name
(both in the code-point lexicographic order that models
`localeCompare`). -/
theorem updatePerformanceTable_sorted_perm
    (data : List (String × List (String × PerfStat))) :
    (updatePerformanceTable data).Perm (flattenPerf data) ∧
    (updatePerformanceTable data).Pairwise perfRowRel :=
  ⟨sortLe_perm perfLe (flattenPerf data),
   sortLe_pairwise perfLe_iff perfRowRel_total perfRowRel_trans (flattenPerf data)⟩

/-- The selection loop of `updateDiskChart` keeps a nonempty
accumulator unchanged. -/
theorem diskFold_stay (acc : Series) (l : List (String × Series)) (hacc : acc ≠ []) :
    l.foldl (fun acc p => if strIncludes p.1 "percent" && acc.length == 0 then p.2 else acc)
      acc = acc := by
  induction l with
  | nil => rfl
  | cons p t ih =>
    have hcond : (strIncludes p.1 "percent" && acc.length == 0) = false := by
      cases acc with
      | nil => exact absurd rfl hacc
      | cons a as => simp
    rw [List.foldl_cons, hcond]
    exact ih

/-- The series selected by `updateDiskChart` is that of the first
percent-named disk metric whose series is nonempty. -/
theorem updateDiskChartData_eq (m : List (String × Series)) :
    updateDiskChartData m = firstNonemptyPercentSeries m := by
  rw [updateDiskChartData]
  induction m with
  | nil => rfl
  | cons p t ih =>
    obtain ⟨nm, vs⟩ := p
    simp only [List.foldl_cons]
    have h0 : ((List.length ([] : Series)) == 0) = true := rfl
    simp only [h0, Bool.and_true]
    by_cases hp : strIncludes nm "percent"
    · rw [if_pos hp]
      cases vs with
      | nil =>
        rw [show firstNonemptyPercentSeries ((nm, []) :: t) = firstNonemptyPercentSeries t
          from by simp [firstNonemptyPercentSeries]]
        exact ih
      | cons a as =>
        rw [show firstNonemptyPercentSeries ((nm, a :: as) :: t) = a :: as
          from by simp [firstNonemptyPercentSeries, hp]]
        exact diskFold_stay (a :: as) t (by simp)
    · rw [if_neg hp]
      rw [show firstNonemptyPercentSeries ((nm, vs) :: t) = firstNonemptyPercentSeries t
        from by simp [firstNonemptyPercentSeries, hp]]
      exact ih

/-- C10 counterexample: on a disk bucket whose first percent-named
metric has an empty series and whose second has data, the chart plots
the second series, not that of the first percent-named metric as the
claim states. -/
theorem updateDiskChart_first_percent_cex :
    updateDiskChartData diskEx = [((1000 : ℤ), (42 : ℚ))] ∧
    firstPercentSeries diskEx = [] ∧
    updateDiskChartData diskEx ≠ firstPercentSeries diskEx := by
  decide

/-- C10 (amended): the disk chart plots exactly one data series — that
of the first disk-bucket metric, in enumeration order, whose name
contains `percent` and whose series is nonempty; percent-named metrics
with empty series and metrics without `percent` in the name are
ignored, and when no percent-named metric has data the chart is
rendered with empty labels and empty data. -/
theorem updateDiskChartData_spec (m : List (String × Series)) (st : ChartsState) :
    updateDiskChartData m = firstNonemptyPercentSeries m ∧
    (st.disk = none →
      ((updateDiskChart m st).disk).map
          (fun c => (c.labels, c.datasets.map Dataset.data)) =
        some ((firstNonemptyPercentSeries m).map (fun i => formatTime i.1),
          [(firstNonemptyPercentSeries m).map (fun i => i.2)])) := by
  refine ⟨updateDiskChartData_eq m, ?_⟩
  intro h
  simp [updateDiskChart, h, updateDiskChartData_eq]

/-- Witness for the amended C10 theorem on the two-metric disk bucket
and a state with an empty disk slot. -/
theorem updateDiskChartData_spec_witness :
    updateDiskChartData diskEx = firstNonemptyPercentSeries diskEx ∧
    ((updateDiskChart diskEx chartStExample).disk).map
        (fun c => (c.labels, c.datasets.map Dataset.data)) =
      some ((firstNonemptyPercentSeries diskEx).map (fun i => formatTime i.1),
        [(firstNonemptyPercentSeries diskEx).map (fun i => i.2)]) :=
  ⟨(updateDiskChartData_spec diskEx chartStExample).1,
   (updateDiskChartData_spec diskEx chartStExample).2 rfl⟩

/-- The prefix test computes list-prefix. -/
theorem startsWithL_iff (n h : List Char) : startsWithL n h = true ↔ n <+: h := by
  induction n generalizing h with
  | nil => exact iff_of_true rfl ⟨h, rfl⟩
  | cons c cs ih =>
    cases h with
    | nil =>
      rw [startsWithL]
      simp
    | cons d ds =>
      rw [startsWithL]
      simp [ih, List.cons_prefix_cons, And.comm]

/-- The substring test computes list-contiguous containment. -/
theorem containsL_iff (n h : List Char) : containsL n h = true ↔ n <:+: h := by
  induction h with
  | nil =>
    rw [containsL, startsWithL_iff]
    simp
  | cons c t ih =>
    rw [containsL]
    simp only [Bool.or_eq_true, startsWithL_iff, ih, List.infix_cons_iff]

/-- Appending a colon to the haystack does not affect containment of a
colon-free needle. -/
theorem infix_concat_colon {n c : List Char} (h : (':' : Char) ∉ n) :
    n <:+: (c ++ [':']) ↔ n <:+: c := by
  rw [List.infix_concat_iff]
  constructor
  · rintro (hs | hi)
    · rcases List.suffix_concat_iff.mp hs with rfl | ⟨t, rfl, _⟩
      · exact ⟨[], c, by simp⟩
      · exact absurd (List.mem_append_right t (by simp)) h
    · exact hi
  · exact fun hi => Or.inr hi

/-- The component filter of `filterLogs` tests the span text, which
carries a trailing colon; for a colon-free filter value this is the
same as testing the component itself. -/
theorem strIncludes_colon_iff (base c : String) (h : (':' : Char) ∉ c.data) :
    strIncludes (base ++ ":") c = strIncludes base c := by
  have h1 : strIncludes (base ++ ":") c = true ↔ strIncludes base c = true := by
    rw [strIncludes, strIncludes, containsL_iff, containsL_iff, String.data_append]
    exact infix_concat_colon h
  cases hb : strIncludes base c <;> cases hb2 : strIncludes (base ++ ":") c <;>
    simp_all

/-- Lowercasing preserves emptiness. -/
theorem lowerStr_eq_empty_iff (s : String) : lowerStr s = "" ↔ s = "" := by
  rw [lowerStr]
  constructor
  · intro h
    have hd : s.data.map Char.toLower = ([] : List Char) := by
      have := congrArg String.data h
      simpa using this
    have : s.data = [] := by simpa using hd
    exact congrArg String.mk this
  · rintro rfl
    rfl

/-- For a level value offered by the level select, the class-list test
of `filterLogs` holds exactly when the entry level equals the filter
level. -/
theorem classList_level {e : LogEntry} {level : String}
    (hl : level ∈ validLevels) (hne : level ≠ "") :
    classListContains e ("log-" ++ level) = true ↔ e.level = level := by
  have hcl : classListContains e ("log-" ++ level) = true ↔
      ("log-" ++ level = "log-entry" ∨ "log-" ++ level = "log-" ++ e.level) := by
    have h1 : classListContains e ("log-" ++ level) = true ↔
        ("log-" ++ level) ∈ logEntryClasses e := by
      rw [classListContains]
      exact List.elem_iff
    rw [h1, logEntryClasses]
    simp
  rw [hcl]
  have hentry : ("log-" ++ level = "log-entry") ↔ level = "entry" := by
    rw [show ("log-entry" : String) = "log-" ++ "entry" from rfl]
    exact strAppend_right_inj
  rw [hentry, strAppend_right_inj]
  fin_cases hl
  · exact absurd rfl hne
  all_goals
    constructor
    · rintro (h | h)
      · exact absurd h (by decide)
      · exact h.symm
    · exact fun h => Or.inr h.symm

/-- C8: for the filter inputs offered by the page (a level from the
level select and a colon-free component value), an entry is visible
after `filterLogs` exactly when the level filter is empty or matches
the entry level, the component filter is empty or occurs inside the
entry component, and the search text is empty or occurs
case-insensitively in the full rendered entry text; and filtering only
computes visibility — the buffer itself is returned unchanged. -/
theorem filterLogs_spec (level component search : String) (entries : List LogEntry)
    (hlevel : level ∈ validLevels) (hcomp : (':' : Char) ∉ component.data) :
    (filterLogs level component search entries).map Prod.fst = entries ∧
    ∀ e ∈ entries,
      (entryVisible level component search e = true ↔
        ((level = "" ∨ e.level = level) ∧
          (component = "" ∨ strIncludes e.component component = true) ∧
          (search = "" ∨
            strIncludes (lowerStr (logEntryText e)) (lowerStr search) = true))) := by
  constructor
  · rw [filterLogs, List.map_map]
    show List.map (fun e => e) entries = entries
    exact List.map_id entries
  · intro e _
    simp only [entryVisible, Bool.and_eq_true, Bool.not_eq_true']
    by_cases hlv : level = ""
    · by_cases hcm : component = "" <;> by_cases hse : search = "" <;>
        simp [hlv, hcm, hse, logComponentText, lowerStr_eq_empty_iff,
          strIncludes_colon_iff e.component component hcomp]
    · by_cases hcm : component = "" <;> by_cases hse : search = "" <;>
        simp [hlv, hcm, hse, logComponentText, lowerStr_eq_empty_iff,
          strIncludes_colon_iff e.component component hcomp, classList_level hlevel hlv,
          and_assoc]

/-- Witness for the log-filter theorem: filtering the simulated buffer
by level ERROR with empty component and search leaves the buffer
contents unchanged. -/
theorem filterLogs_spec_witness :
    ("ERROR" ∈ validLevels ∧ (':' : Char) ∉ ("" : String).data) ∧
    (filterLogs "ERROR" "" "" simulatedLogs).map Prod.fst = simulatedLogs :=
  ⟨⟨by decide, by decide⟩,
   (filterLogs_spec "ERROR" "" "" simulatedLogs (by decide) (by decide)).1⟩

end MonitoringDashboard
